import Mathlib

/-!
Shallow embedding of `app/minimal.py`, a thin HTTP proxy that relays chat
queries to an external generation endpoint and persists per-session chat
transcripts in a Redis list keyed by `chat_history:{session_id}`.

Modelling choices, each tied to a line of the source:

* JSON values are the inductive `Json` (null / bool / int / string / array /
  object); Python `dict.get(k, d)` on a parsed JSON value is `pyDictGet`,
  which raises (models `AttributeError`) when the value is not an object,
  exactly as `result.get(...)` does in Python on a list or scalar.
* Redis is `Store`: a map from key to list of transcript entries plus a map
  from key to optional TTL.  `rpush` appends and never touches the TTL,
  `expire` sets the TTL of an existing (non-empty) key, `delete` removes the
  key and its TTL, `lrange 0 -1` reads the whole list.  Entries are stored
  structurally (`Entry`) rather than as JSON text: `json.dumps`/`json.loads`
  round-trip exactly on the dictionaries the handler writes.
* The upstream generation endpoint is an oracle `Upstream`: either a reply
  with a status code and a body whose JSON parse succeeds or fails, or a
  transport-level failure (`httpx` network error / timeout) carrying the
  exception text.
* A handler run is a `ChatStep`: the final store, a trace of outward effects
  in program order (store appends, the outbound forward call, TTL set), and
  the HTTP result.  `ChatResult.httpError` is a raised `HTTPException`;
  `ChatResult.pyError` is an unhandled Python exception (the framework turns
  it into a generic 500 with no handler-chosen detail).
* Crucially, line 62 of the source raises
  `HTTPException(status_code=response.status_code, detail="ML service error")`
  inside the `try:` block, and `fastapi.HTTPException` subclasses `Exception`,
  so the `except Exception as e:` on line 71 catches it and re-raises it as
  status 500 with detail `f"Error communicating with ML service: {str(e)}"`,
  where `str(e)` of a Starlette `HTTPException` is `f"{status_code}: {detail}"`.
  The embedding reproduces this: the upstream status code is never surfaced.
-/

/-- JSON values as produced by Python `json` parsing (numbers restricted to
integers; no claim depends on numeric content). -/
inductive Json where
  | null
  | bool (b : Bool)
  | num (n : Int)
  | str (s : String)
  | arr (elems : List Json)
  | obj (fields : List (String × Json))

/-- A transcript entry, the payload of
`json.dumps(\x7b"role": r, "content": c\x7d)` as stored in the Redis list.
The content is any JSON value: `body.get("query", "")` and
`result.get("response", "")` can return arbitrary JSON. -/
structure Entry where
  role : String
  content : Json

/-- The Redis state visible to the proxy: each key holds an ordered list of
entries (absent key = empty list) and an optional TTL (none = no expiry set
or key absent). -/
structure Store where
  data : String → List Entry
  ttl : String → Option Nat

/-- Redis `RPUSH key value`: append one element at the tail; the key's TTL is
not modified. -/
def Store.rpush (st : Store) (key : String) (e : Entry) : Store :=
  { st with data := fun k => if k = key then st.data k ++ [e] else st.data k }

/-- Redis `EXPIRE key seconds`: set the TTL of an existing key; on a missing
(empty) key it is a no-op. -/
def Store.expire (st : Store) (key : String) (seconds : Nat) : Store :=
  if (st.data key).isEmpty then st
  else { st with ttl := fun k => if k = key then some seconds else st.ttl k }

/-- Redis `DEL key`: remove the key, its list and its TTL; deleting an absent
key is not an error. -/
def Store.delete (st : Store) (key : String) : Store :=
  { data := fun k => if k = key then [] else st.data k,
    ttl := fun k => if k = key then none else st.ttl k }

/-- Redis `LRANGE key 0 -1`: the whole stored list, in insertion order;
an absent key yields the empty list. -/
def Store.lrangeAll (st : Store) (key : String) : List Entry :=
  st.data key

/-- The store with no keys at all. -/
def emptyStore : Store :=
  { data := fun _ => [], ttl := fun _ => none }

/-- Python `j.get(k, d)` on a parsed JSON value `j`: on a JSON object it is
the value of the (first) binding of `k`, or the default `d` when `k` is
absent; on any non-object it raises `AttributeError` (modelled as the error
text, the concrete Python message being immaterial to every claim). -/
def pyDictGet (j : Json) (k : String) (d : Json) : Except String Json :=
  match j with
  | Json.obj fields => Except.ok ((fields.lookup k).getD d)
  | _ => Except.error "AttributeError: object has no attribute get"

/-- Truthiness of the `Optional[str]` header value `x_session_id` as tested
by `if not x_session_id:` — `None` and the empty string are falsy. -/
def headerTruthy : Option String → Bool
  | none => false
  | some s => decide (s ≠ "")

/-- The behaviour of the external generation endpoint for the single outbound
POST the handler makes: a reply with a status code and the outcome of
`response.json()` (`Except.error` = body not parseable as JSON, carrying the
decode-exception text), or a transport failure (`httpx` connect/timeout
error) carrying `str(e)`. -/
inductive Upstream where
  | reply (status : Nat) (body : Except String Json)
  | netError (msg : String)

/-- The HTTP-level outcome of one `/chat` request: a 200 JSON result, a
raised `HTTPException` with status and detail, or an unhandled Python
exception (surfaced by the framework as a bare 500). -/
inductive ChatResult where
  | ok (body : Json)
  | httpError (status : Nat) (detail : String)
  | pyError (msg : String)

/-- One outward effect of the handler, in program order: a store append of an
entry under a key, the outbound forward call (with the JSON `query` value and
the session id it carries), or setting a key's TTL. -/
inductive Effect where
  | append (key : String) (e : Entry)
  | forward (query : Json) (sessionId : String)
  | setExpire (key : String) (seconds : Nat)

/-- The result of running the `/chat` handler once: final store, effect
trace in program order, and HTTP result. -/
structure ChatStep where
  store : Store
  trace : List Effect
  result : ChatResult

/-- Detail-message prefix of the catch-all `except Exception as e:` handler
(line 72 of the source). -/
def mlErrMsg (s : String) : String :=
  "Error communicating with ML service: " ++ s

/-- Lines 53–72 of the source: the `try:` block.  The user entry has already
been pushed (`st` here is the store after that push); the outbound POST is
issued and the oracle `ups` answers.  On a non-200 reply the
`HTTPException(status_code=response.status_code, detail="ML service error")`
raised on line 62 is caught by `except Exception` on line 71 and re-raised as
status 500 with `str(e) = f"{status_code}: {detail}"` interpolated.  On a
200 reply the body is parsed, `result.get("response", "")` is extracted (an
`AttributeError` on a non-object body is likewise caught and becomes a 500),
the assistant entry is pushed and the TTL set to 3600 seconds. -/
def proxy_chatForward (st : Store) (ups : Upstream) (sid : String) (q : Json) : ChatStep :=
  let key := "chat_history:" ++ sid
  let tr : List Effect := [Effect.append key (Entry.mk "user" q), Effect.forward q sid]
  match ups with
  | Upstream.netError msg =>
      ⟨st, tr, ChatResult.httpError 500 (mlErrMsg msg)⟩
  | Upstream.reply status bodyE =>
      if status ≠ 200 then
        ⟨st, tr, ChatResult.httpError 500 (mlErrMsg (toString status ++ ": ML service error"))⟩
      else
        match bodyE with
        | Except.error msg => ⟨st, tr, ChatResult.httpError 500 (mlErrMsg msg)⟩
        | Except.ok result =>
            match pyDictGet result "response" (Json.str "") with
            | Except.error msg => ⟨st, tr, ChatResult.httpError 500 (mlErrMsg msg)⟩
            | Except.ok resp =>
                ⟨((st.rpush key (Entry.mk "assistant" resp)).expire key 3600),
                 tr ++ [Effect.append key (Entry.mk "assistant" resp),
                        Effect.setExpire key 3600],
                 ChatResult.ok result⟩

/-- The `POST /chat` handler `proxy_chat` (lines 40–72 of the source), run on
a store `st`, an upstream oracle `ups`, the `X-Session-Id` header value and
the already-parsed JSON request body.  A falsy header (absent or empty) is
rejected with 400 before anything else; then `body.get("query", "")` is
evaluated (line 50: an `AttributeError` on a non-object body propagates
unhandled, before any store write), the user entry is pushed, and the
forward step runs. -/
def proxy_chat (st : Store) (ups : Upstream) (x_session_id : Option String)
    (body : Json) : ChatStep :=
  if headerTruthy x_session_id then
    match pyDictGet body "query" (Json.str "") with
    | Except.error msg => ⟨st, [], ChatResult.pyError msg⟩
    | Except.ok q =>
        let sid := x_session_id.getD ""
        let key := "chat_history:" ++ sid
        proxy_chatForward (st.rpush key (Entry.mk "user" q)) ups sid q
  else
    ⟨st, [], ChatResult.httpError 400 "X-Session-Id header is required"⟩

/-- Response body of `GET /chat/history/{session_id}`. -/
structure HistoryResponse where
  session_id : String
  history : List Entry

/-- The `GET /chat/history/{session_id}` handler (lines 74–79): reads the
whole list via `LRANGE key 0 -1` (a pure read — the store is returned
untouched, in particular no TTL is refreshed) and wraps it. -/
def get_session_history (st : Store) (session_id : String) : Store × HistoryResponse :=
  let key := "chat_history:" ++ session_id
  (st, ⟨session_id, st.lrangeAll key⟩)

/-- Response body of `POST /chat/session/{session_id}/clear`. -/
structure ClearResponse where
  session_id : String
  message : String

/-- The `POST /chat/session/{session_id}/clear` handler (lines 81–85):
deletes the transcript key and always acknowledges. -/
def clear_session_history (st : Store) (session_id : String) : Store × ClearResponse :=
  let key := "chat_history:" ++ session_id
  (st.delete key, ⟨session_id, "Chat history cleared successfully."⟩)

/-! Helper lemmas about the store model, shared by the claim theorems. -/

theorem Store.rpush_data (st : Store) (key : String) (e : Entry) (k : String) :
    (st.rpush key e).data k = if k = key then st.data k ++ [e] else st.data k := rfl

theorem Store.rpush_ttl (st : Store) (key : String) (e : Entry) :
    (st.rpush key e).ttl = st.ttl := rfl

theorem Store.expire_data (st : Store) (key : String) (n : Nat) :
    (st.expire key n).data = st.data := by
  unfold Store.expire; split <;> rfl

theorem List.isEmpty_append_singleton (l : List Entry) (e : Entry) :
    (l ++ [e]).isEmpty = false := by
  cases l <;> rfl

/-- Claim C1 (code bug): the spec says a non-200 upstream reply is surfaced
with that same upstream status code.  Line 62 of the source indeed raises
`HTTPException(status_code=response.status_code, detail="ML service error")`,
but that exception is an `Exception`, so the catch-all on line 71 swallows it
and re-raises status 500 with the stringified original exception in the
detail.  At the concrete failing input (session "s", body with query "hi",
upstream replying 503) the handler returns status 500, not 503; the other
half of the claim — no assistant entry is appended, only the user entry —
does hold. -/
theorem c1_upstream_non200_surfaced_as_500 :
    (proxy_chat emptyStore (Upstream.reply 503 (Except.ok (Json.obj []))) (some "s")
        (Json.obj [("query", Json.str "hi")])).result =
      ChatResult.httpError 500 "Error communicating with ML service: 503: ML service error"
    ∧ (proxy_chat emptyStore (Upstream.reply 503 (Except.ok (Json.obj []))) (some "s")
        (Json.obj [("query", Json.str "hi")])).store.data ("chat_history:" ++ "s") =
      [Entry.mk "user" (Json.str "hi")] :=
  ⟨rfl, rfl⟩

/-- Claim C2: a successful `/chat` call appends exactly two new entries to
the session's transcript — the user entry then the assistant entry — with
the user append strictly before the outbound forward call in the effect
trace and the assistant append strictly after it, the user content being the
request body's `query` field and the assistant content the upstream body's
`response` field (each defaulting to the empty string). -/
theorem c2_success_appends_user_then_assistant (st : Store) (ups : Upstream)
    (xsid : Option String) (body j : Json)
    (hok : (proxy_chat st ups xsid body).result = ChatResult.ok j) :
    ∃ sid q r,
      xsid = some sid
      ∧ pyDictGet body "query" (Json.str "") = Except.ok q
      ∧ pyDictGet j "response" (Json.str "") = Except.ok r
      ∧ (proxy_chat st ups xsid body).trace =
          [Effect.append ("chat_history:" ++ sid) (Entry.mk "user" q),
           Effect.forward q sid,
           Effect.append ("chat_history:" ++ sid) (Entry.mk "assistant" r),
           Effect.setExpire ("chat_history:" ++ sid) 3600]
      ∧ (proxy_chat st ups xsid body).store.data ("chat_history:" ++ sid) =
          st.data ("chat_history:" ++ sid) ++ [Entry.mk "user" q, Entry.mk "assistant" r] := by
  cases xsid with
  | none => simp [proxy_chat, headerTruthy] at hok
  | some s =>
    by_cases hs : s = ""
    · subst hs; simp [proxy_chat, headerTruthy] at hok
    · rcases hq : pyDictGet body "query" (Json.str "") with msg | q
      · simp [proxy_chat, headerTruthy, hs, hq] at hok
      · cases ups with
        | netError m =>
          simp [proxy_chat, headerTruthy, hs, hq, proxy_chatForward] at hok
        | reply status bodyE =>
          by_cases hst : status = 200
          · subst hst
            rcases bodyE with msg | result
            · simp [proxy_chat, headerTruthy, hs, hq, proxy_chatForward] at hok
            · rcases hr : pyDictGet result "response" (Json.str "") with m2 | resp
              · simp [proxy_chat, headerTruthy, hs, hq, proxy_chatForward, hr] at hok
              · have hj : result = j := by
                  simpa [proxy_chat, headerTruthy, hs, hq, proxy_chatForward, hr] using hok
                subst hj
                refine ⟨s, q, resp, rfl, ?_, ?_, ?_, ?_⟩
                · rfl
                · exact hr
                · simp [proxy_chat, headerTruthy, hs, hq, proxy_chatForward, hr]
                · simp [proxy_chat, headerTruthy, hs, hq, proxy_chatForward, hr,
                        Store.expire_data, Store.rpush_data]
          · simp [proxy_chat, headerTruthy, hs, hq, proxy_chatForward, hst] at hok

/-- Witness for C2 at a concrete successful run: session "s", request query
"hello", upstream replying 200 with body containing response "hi there". -/
theorem c2_witness :
    ∃ sid q r,
      (some "s" : Option String) = some sid
      ∧ pyDictGet (Json.obj [("query", Json.str "hello")]) "query" (Json.str "") = Except.ok q
      ∧ pyDictGet (Json.obj [("response", Json.str "hi there")]) "response" (Json.str "")
          = Except.ok r
      ∧ (proxy_chat emptyStore
            (Upstream.reply 200 (Except.ok (Json.obj [("response", Json.str "hi there")])))
            (some "s") (Json.obj [("query", Json.str "hello")])).trace =
          [Effect.append ("chat_history:" ++ sid) (Entry.mk "user" q),
           Effect.forward q sid,
           Effect.append ("chat_history:" ++ sid) (Entry.mk "assistant" r),
           Effect.setExpire ("chat_history:" ++ sid) 3600]
      ∧ (proxy_chat emptyStore
            (Upstream.reply 200 (Except.ok (Json.obj [("response", Json.str "hi there")])))
            (some "s") (Json.obj [("query", Json.str "hello")])).store.data
            ("chat_history:" ++ sid) =
          emptyStore.data ("chat_history:" ++ sid)
            ++ [Entry.mk "user" q, Entry.mk "assistant" r] :=
  c2_success_appends_user_then_assistant emptyStore
    (Upstream.reply 200 (Except.ok (Json.obj [("response", Json.str "hi there")])))
    (some "s") (Json.obj [("query", Json.str "hello")])
    (Json.obj [("response", Json.str "hi there")]) rfl

/-- Claim C3: a `/chat` request without the `X-Session-Id` header fails with
status 400, the store is returned exactly as it was (every transcript
unchanged) and the effect trace is empty (no store append of any kind). -/
theorem c3_missing_header_rejected_400 (st : Store) (ups : Upstream) (body : Json) :
    proxy_chat st ups none body =
      ⟨st, [], ChatResult.httpError 400 "X-Session-Id header is required"⟩ :=
  rfl

/-- Claim C9: a `/chat` request whose `X-Session-Id` header is the empty
string is handled exactly like a request with no header at all — the very
same rejection with status 400, untouched store, empty effect trace. -/
theorem c9_empty_header_rejected_400 (st : Store) (ups : Upstream) (body : Json) :
    proxy_chat st ups (some "") body = proxy_chat st ups none body
    ∧ proxy_chat st ups (some "") body =
        ⟨st, [], ChatResult.httpError 400 "X-Session-Id header is required"⟩ :=
  ⟨rfl, rfl⟩

/-- Claim C4: when the outbound call fails with a transport error (network,
timeout, any `httpx` exception), the handler fails with status 500 whose
detail embeds the underlying error description, the transcript gains only
the user entry (no assistant entry), and the effect trace contains exactly
one forward call — no retry. -/
theorem c4_transport_error_500_no_retry (st : Store) (msg sid : String)
    (fields : List (String × Json)) (hsid : sid ≠ "") :
    (proxy_chat st (Upstream.netError msg) (some sid) (Json.obj fields)).result =
      ChatResult.httpError 500 ("Error communicating with ML service: " ++ msg)
    ∧ (proxy_chat st (Upstream.netError msg) (some sid) (Json.obj fields)).store.data
        ("chat_history:" ++ sid) =
      st.data ("chat_history:" ++ sid)
        ++ [Entry.mk "user" ((fields.lookup "query").getD (Json.str ""))]
    ∧ (proxy_chat st (Upstream.netError msg) (some sid) (Json.obj fields)).trace =
      [Effect.append ("chat_history:" ++ sid)
          (Entry.mk "user" ((fields.lookup "query").getD (Json.str ""))),
       Effect.forward ((fields.lookup "query").getD (Json.str "")) sid] := by
  refine ⟨?_, ?_, ?_⟩ <;>
    simp [proxy_chat, headerTruthy, hsid, pyDictGet, proxy_chatForward, mlErrMsg,
      Store.rpush]

/-- Witness for C4 at a concrete input: session "s", empty-object request
body, transport failure "Connection timed out". -/
theorem c4_witness :
    (proxy_chat emptyStore (Upstream.netError "Connection timed out") (some "s")
        (Json.obj [])).result =
      ChatResult.httpError 500
        ("Error communicating with ML service: " ++ "Connection timed out") :=
  (c4_transport_error_500_no_retry emptyStore "Connection timed out" "s" []
    (by decide)).1

/-- Claim C5 counterexample: the claim quantifies over every JSON upstream
body, but on a 200 reply whose body is a JSON array (a perfectly good JSON
body with no `response` field) the source calls `result.get("response", "")`,
which raises `AttributeError` on a list; the catch-all turns that into a 500
and no assistant entry is appended — the upstream body is not returned. -/
theorem c5_counterexample_non_object_body :
    ¬ (proxy_chat emptyStore (Upstream.reply 200 (Except.ok (Json.arr []))) (some "s")
        (Json.obj [("query", Json.str "hi")])).result = ChatResult.ok (Json.arr [])
    ∧ (proxy_chat emptyStore (Upstream.reply 200 (Except.ok (Json.arr []))) (some "s")
        (Json.obj [("query", Json.str "hi")])).result =
      ChatResult.httpError 500
        "Error communicating with ML service: AttributeError: object has no attribute get"
    ∧ (proxy_chat emptyStore (Upstream.reply 200 (Except.ok (Json.arr []))) (some "s")
        (Json.obj [("query", Json.str "hi")])).store.data ("chat_history:" ++ "s") =
      [Entry.mk "user" (Json.str "hi")] := by
  refine ⟨?_, rfl, rfl⟩
  intro h
  rw [show (proxy_chat emptyStore (Upstream.reply 200 (Except.ok (Json.arr []))) (some "s")
        (Json.obj [("query", Json.str "hi")])).result =
      ChatResult.httpError 500
        "Error communicating with ML service: AttributeError: object has no attribute get"
    from rfl] at h
  exact ChatResult.noConfusion h

/-- Claim C5 as amended: when the upstream returns status 200 with a JSON
object body, the handler returns that full upstream body unmodified, and the
appended assistant entry's content is the body's `response` field, or the
empty string when that field is absent. -/
theorem c5_object_body_returned_verbatim (st : Store) (sid : String)
    (fields rfields : List (String × Json)) (hsid : sid ≠ "") :
    (proxy_chat st (Upstream.reply 200 (Except.ok (Json.obj rfields))) (some sid)
        (Json.obj fields)).result =
      ChatResult.ok (Json.obj rfields)
    ∧ (proxy_chat st (Upstream.reply 200 (Except.ok (Json.obj rfields))) (some sid)
        (Json.obj fields)).store.data ("chat_history:" ++ sid) =
      st.data ("chat_history:" ++ sid)
        ++ [Entry.mk "user" ((fields.lookup "query").getD (Json.str "")),
            Entry.mk "assistant" ((rfields.lookup "response").getD (Json.str ""))] := by
  refine ⟨?_, ?_⟩ <;>
    simp [proxy_chat, headerTruthy, hsid, pyDictGet, proxy_chatForward,
      Store.expire_data, Store.rpush_data]

/-- Witness for the amended C5 at a concrete input: session "s", query
"hello", upstream object body with response "hi there". -/
theorem c5_witness :
    (proxy_chat emptyStore
        (Upstream.reply 200 (Except.ok (Json.obj [("response", Json.str "hi there")])))
        (some "s") (Json.obj [("query", Json.str "hello")])).result =
      ChatResult.ok (Json.obj [("response", Json.str "hi there")]) :=
  (c5_object_body_returned_verbatim emptyStore "s" [("query", Json.str "hello")]
    [("response", Json.str "hi there")] (by decide)).1

/-- Claim C6: the transcript key's TTL is set to 3600 seconds exactly when
the `/chat` run succeeds (equivalently, when the assistant entry is
appended); on every non-successful run the TTL map is returned exactly as it
was, and a `get_session_history` read returns the store untouched — no TTL
refresh on read. -/
theorem c6_ttl_refresh_on_success_only (st : Store) (ups : Upstream)
    (xsid : Option String) (body : Json) :
    ((∃ j, (proxy_chat st ups xsid body).result = ChatResult.ok j) →
        (proxy_chat st ups xsid body).store.ttl ("chat_history:" ++ xsid.getD "") =
          some 3600)
    ∧ ((¬ ∃ j, (proxy_chat st ups xsid body).result = ChatResult.ok j) →
        (proxy_chat st ups xsid body).store.ttl = st.ttl)
    ∧ (get_session_history st (xsid.getD "")).fst = st := by
  refine ⟨?_, ?_, rfl⟩ <;>
  · intro h
    cases xsid with
    | none => simp [proxy_chat, headerTruthy] at h ⊢
    | some s =>
      by_cases hs : s = ""
      · subst hs
        simp [proxy_chat, headerTruthy] at h ⊢
      · rcases hq : pyDictGet body "query" (Json.str "") with msg | q
        · simp [proxy_chat, headerTruthy, hs, hq] at h ⊢
        · cases ups with
          | netError m =>
            simp [proxy_chat, headerTruthy, hs, hq, proxy_chatForward,
              Store.rpush_ttl] at h ⊢
          | reply status bodyE =>
            by_cases hst : status = 200
            · subst hst
              rcases bodyE with msg | result
              · simp [proxy_chat, headerTruthy, hs, hq, proxy_chatForward,
                  Store.rpush_ttl] at h ⊢
              · rcases hr : pyDictGet result "response" (Json.str "") with m2 | resp
                · simp [proxy_chat, headerTruthy, hs, hq, proxy_chatForward, hr,
                    Store.rpush_ttl] at h ⊢
                · simp [proxy_chat, headerTruthy, hs, hq, proxy_chatForward, hr,
                    Store.expire, Store.rpush, List.isEmpty_append_singleton] at h ⊢
            · simp [proxy_chat, headerTruthy, hs, hq, proxy_chatForward, hst,
                Store.rpush_ttl] at h ⊢

/-- Witness for C6 at a concrete successful run: the transcript key of
session "s" ends with TTL 3600. -/
theorem c6_witness :
    (proxy_chat emptyStore (Upstream.reply 200 (Except.ok (Json.obj []))) (some "s")
        (Json.obj [])).store.ttl ("chat_history:" ++ "s") = some 3600 :=
  (c6_ttl_refresh_on_success_only emptyStore
    (Upstream.reply 200 (Except.ok (Json.obj []))) (some "s") (Json.obj [])).1
    ⟨Json.obj [], rfl⟩

/-- Claim C7: for a session whose transcript key holds nothing (unknown or
expired), `get_session_history` succeeds and returns the session id with an
empty history, leaving the store untouched. -/
theorem c7_unknown_session_empty_history (st : Store) (sid : String)
    (h : st.data ("chat_history:" ++ sid) = []) :
    get_session_history st sid = (st, HistoryResponse.mk sid []) := by
  simp [get_session_history, Store.lrangeAll, h]

/-- Witness for C7 at a concrete input: the empty store and session "s". -/
theorem c7_witness :
    get_session_history emptyStore "s" = (emptyStore, HistoryResponse.mk "s" []) :=
  c7_unknown_session_empty_history emptyStore "s" rfl

/-- Claim C8: clearing is idempotent — the second of two consecutive clears
still returns the normal acknowledgement (no error), and reading the history
immediately after either clear yields the empty history, whatever the prior
transcript content was. -/
theorem c8_clear_idempotent (st : Store) (sid : String) :
    (clear_session_history (clear_session_history st sid).fst sid).snd =
      ClearResponse.mk sid "Chat history cleared successfully."
    ∧ (get_session_history (clear_session_history st sid).fst sid).snd =
      HistoryResponse.mk sid []
    ∧ (get_session_history
        (clear_session_history (clear_session_history st sid).fst sid).fst sid).snd =
      HistoryResponse.mk sid [] := by
  refine ⟨rfl, ?_, ?_⟩ <;>
    simp [clear_session_history, get_session_history, Store.delete, Store.lrangeAll]

/-- Claim C10: when the upstream replies 200 but its body fails to parse as
JSON, the handler fails with status 500 (detail embedding the decode-error
text), the TTL map is not touched, and the transcript gains exactly the user
entry — which persists — with no assistant entry. -/
theorem c10_unparseable_upstream_body_500 (st : Store) (msg sid : String)
    (fields : List (String × Json)) (hsid : sid ≠ "") :
    (proxy_chat st (Upstream.reply 200 (Except.error msg)) (some sid)
        (Json.obj fields)).result =
      ChatResult.httpError 500 ("Error communicating with ML service: " ++ msg)
    ∧ (proxy_chat st (Upstream.reply 200 (Except.error msg)) (some sid)
        (Json.obj fields)).store.ttl = st.ttl
    ∧ (proxy_chat st (Upstream.reply 200 (Except.error msg)) (some sid)
        (Json.obj fields)).store.data ("chat_history:" ++ sid) =
      st.data ("chat_history:" ++ sid)
        ++ [Entry.mk "user" ((fields.lookup "query").getD (Json.str ""))] := by
  refine ⟨?_, ?_, ?_⟩ <;>
    simp [proxy_chat, headerTruthy, hsid, pyDictGet, proxy_chatForward, mlErrMsg,
      Store.rpush, Store.rpush_ttl]

/-- Witness for C10 at a concrete input: session "s", query "hi", upstream
replying 200 with an unparseable body. -/
theorem c10_witness :
    (proxy_chat emptyStore (Upstream.reply 200 (Except.error "Expecting value"))
        (some "s") (Json.obj [("query", Json.str "hi")])).result =
      ChatResult.httpError 500
        ("Error communicating with ML service: " ++ "Expecting value") :=
  (c10_unparseable_upstream_body_500 emptyStore "Expecting value" "s"
    [("query", Json.str "hi")] (by decide)).1
